import Mathlib

/-!
Shallow embedding of `src/main.py`: a serverless job handler that validates a
job input, probes a local ComfyUI render server, mutates a workflow template,
submits it, polls the history endpoint for outputs, resolves the produced
image on local disk and uploads it to a HuggingFace repository.

Python values flowing through the handler are JSON-shaped; we model them with
`JValue`.  Python exceptions are modelled with `Except String`: an
`Except.error` that reaches the top of `handler` is an uncaught exception
(the process crashes), while the `try`/`except` blocks of the source catch it
and convert it into a result dictionary.  External effects (HTTP requests,
the on-disk template, file existence, the upload) are supplied as oracles in
an `Env` record; the upload calls performed are returned alongside the
result so that publishing behaviour is observable.
-/

set_option autoImplicit false

namespace RpComfy

/-- JSON-shaped Python values (dictionaries keep insertion order, hence
association lists). -/
inductive JValue where
  | null
  | bool (b : Bool)
  | num (n : Int)
  | str (s : String)
  | arr (xs : List JValue)
  | obj (fields : List (String × JValue))
  deriving Repr, Inhabited

/-- A Python dictionary with string keys. -/
abbrev JObj := List (String × JValue)

mutual

/-- Structural equality of JSON values (Python `==` on parsed JSON). -/
def jeq : JValue → JValue → Bool
  | .null, .null => true
  | .bool a, .bool b => a == b
  | .num a, .num b => a == b
  | .str a, .str b => a == b
  | .arr xs, .arr ys => jeqList xs ys
  | .obj xs, .obj ys => jeqObj xs ys
  | _, _ => false

/-- Elementwise `jeq` on arrays. -/
def jeqList : List JValue → List JValue → Bool
  | [], [] => true
  | x :: xs, y :: ys => jeq x y && jeqList xs ys
  | _, _ => false

/-- Elementwise `jeq` on objects. -/
def jeqObj : List (String × JValue) → List (String × JValue) → Bool
  | [], [] => true
  | (k, x) :: xs, (k', y) :: ys => k == k' && jeq x y && jeqObj xs ys
  | _, _ => false

end

/-- Key lookup in a Python dictionary (`d[k]` when present, else `None`
sentinel handled by callers). -/
def getKey : JObj → String → Option JValue
  | [], _ => none
  | (k', v) :: tl, k => if k' = k then some v else getKey tl k

/-- Dictionary assignment `d[k] = v`: overwrite in place when the key exists
(keeping its position, as CPython dictionaries do), otherwise append. -/
def setKey : JObj → String → JValue → JObj
  | [], k, v => [(k, v)]
  | (k', v') :: tl, k, v => if k' = k then (k, v) :: tl else (k', v') :: setKey tl k v

/-- Python truthiness of a JSON value (`if x:`). -/
def truthy : JValue → Bool
  | .null => false
  | .bool b => b
  | .num n => n != 0
  | .str s => s != ""
  | .arr xs => !xs.isEmpty
  | .obj fs => !fs.isEmpty

/-- Python `x is None` for JSON-shaped values. -/
def isNull : JValue → Bool
  | .null => true
  | _ => false

/-- Does `pat` begin the character list? -/
def beginsWith : List Char → List Char → Bool
  | [], _ => true
  | _ :: _, [] => false
  | p :: ps, c :: cs => p == c && beginsWith ps cs

/-- Does `pat` occur contiguously in the character list (Python substring
membership `pat in s`)? -/
def occursIn (pat : List Char) : List Char → Bool
  | [] => pat.isEmpty
  | c :: cs => beginsWith pat (c :: cs) || occursIn pat cs

/-- Python substring test `pat in hay`. -/
def strIn (pat hay : String) : Bool :=
  occursIn pat.data hay.data

/-- Python subscript `v[k]` with a string key: `KeyError` when the key is
absent from a dictionary, `TypeError` on non-dictionary containers. -/
def subscript (v : JValue) (k : String) : Except String JValue :=
  match v with
  | .obj fs =>
    match getKey fs k with
    | some x => .ok x
    | none => .error ("KeyError: " ++ k)
  | .arr _ => .error "TypeError: list indices must be integers"
  | .str _ => .error "TypeError: string indices must be integers"
  | _ => .error "TypeError: object is not subscriptable"

/-- Python `v[pv]` where the key is itself a JSON value.  JSON object keys
are strings, so a non-string key is never present: CPython raises `KeyError`
for hashable keys and `TypeError` for unhashable ones; either way an
exception. -/
def subscriptV (v : JValue) (pv : JValue) : Except String JValue :=
  match pv with
  | .str k => subscript v k
  | .arr _ => .error "TypeError: unhashable type"
  | .obj _ => .error "TypeError: unhashable type"
  | _ => .error "KeyError"

/-- Python `v.get(k)` on a dictionary: the value when present, `None`
otherwise; `AttributeError` when `v` is not a dictionary. -/
def dictGet (v : JValue) (k : String) : Except String JValue :=
  match v with
  | .obj fs => .ok ((getKey fs k).getD .null)
  | _ => .error "AttributeError: object has no attribute get"

/-! ### Paths

`pathlib` pure POSIX paths are modelled as an anchor flag (absolute or
relative) together with the list of components.  `Path(s)` is absolute when
`s` starts with `/`, and splits the rest on `/`, dropping empty and `.`
components.  `p / q` keeps pathlib's anchor rule: an absolute right operand
replaces the left entirely; otherwise the components concatenate (joining
with the empty string leaves the path unchanged, as in `pathlib`). -/

/-- A `pathlib.PurePosixPath`: its anchor and its components. -/
structure FsPath where
  absolute : Bool
  parts : List String
  deriving Repr, DecidableEq, BEq

/-- Split a character list on `/`. -/
def splitPathAux : List Char → List Char → List String
  | [], cur => [String.mk cur.reverse]
  | c :: tl, cur =>
    if c = '/' then String.mk cur.reverse :: splitPathAux tl []
    else splitPathAux tl (c :: cur)

/-- The path `Path(s)`: anchored iff `s` starts with `/`. -/
def pathOfString (s : String) : FsPath :=
  ⟨s.data.head? == some '/',
   (splitPathAux s.data []).filter (fun c => !(c == "" || c == "."))⟩

/-- The pathlib join `p / q`: an absolute `q` replaces `p` (its anchor
discards everything to the left), a relative `q` appends its components. -/
def joinPath (p q : FsPath) : FsPath :=
  if q.absolute then q else ⟨p.absolute, p.parts ++ q.parts⟩

/-- Python `str(path)`. -/
def renderPath (p : FsPath) : String :=
  if p.absolute then "/" ++ String.intercalate "/" p.parts
  else if p.parts.isEmpty then "." else String.intercalate "/" p.parts

/-- Python `path.name`: the final component (empty for a bare root or an
empty path). -/
def pathName (p : FsPath) : String :=
  (p.parts.getLast?).getD ""

/-! ### Module-level configuration of `src/main.py` (lines 11-24) -/

/-- Repo in HuggingFace to upload outputs to. -/
def HF_REPO_UPLOAD : String := "notkenski/inferences"

/-- ComfyUI workflow file used by the script. -/
def COMFY_WORKFLOW_FILE_NAME : String := "example_workflow-api.json"

/-- Max attempts to connect to the host, also the polling budget. -/
def COMFY_API_MAX_ATTEMPTS : Nat := 100

/-- Delay between attempts (seconds); time is not modelled. -/
def COMFY_API_MAX_DELAY : Nat := 5

/-- Output directory for ComfyUI images, `Path("comfyui") / "output"` (a
relative path). -/
def COMFY_OUTPUT_PATH : FsPath := ⟨false, ["comfyui", "output"]⟩

/-- Path of the workflow template relative to the working directory,
`curr_dir / "workflows" / COMFY_WORKFLOW_FILE_NAME`. -/
def WF_TEMPLATE_PATH : String := "workflows/" ++ COMFY_WORKFLOW_FILE_NAME

/-! ### `mutate_workflow` (src/main.py lines 26-44) -/

/-- The in-memory mutation of the parsed template: read
`parsed_workflow["25"]["inputs"]["noise_seed"]` (line 35 raises if the path
is missing), then assign `hyperparams["noise_seed"]` to it.  CPython mutates
the nested dictionaries in place; since `json.load` never aliases, this
equals the functional update of the one leaf. -/
def mutate_workflow_doc (parsed_workflow : JValue) (hyperparams : JValue) :
    Except String JValue :=
  match parsed_workflow with
  | .obj nodes =>
    match getKey nodes "25" with
    | none => .error "KeyError: 25"
    | some (.obj nflds) =>
      match getKey nflds "inputs" with
      | none => .error "KeyError: inputs"
      | some (.obj iflds) =>
        match getKey iflds "noise_seed" with
        | none => .error "KeyError: noise_seed"
        | some _ =>
          match hyperparams with
          | .obj hps =>
            match getKey hps "noise_seed" with
            | none => .error "KeyError: noise_seed"
            | some seed =>
              .ok (.obj (setKey nodes "25"
                    (.obj (setKey nflds "inputs"
                      (.obj (setKey iflds "noise_seed" seed))))))
          | _ => .error "TypeError: object is not subscriptable"
      | some _ => .error "TypeError: object is not subscriptable"
    | some _ => .error "TypeError: object is not subscriptable"
  | _ => .error "TypeError: object is not subscriptable"

/-- Function `mutate_workflow`: open the template for reading (a missing file raises),
parse it, and mutate the in-memory copy.  The disk content (a map from path
to parsed file content) is threaded through unchanged: the source opens the
file with mode `"r"` only and never writes. -/
def mutate_workflow (files : List (String × JValue)) (hyperparams : JValue) :
    List (String × JValue) × Except String JValue :=
  (files,
   match getKey files WF_TEMPLATE_PATH with
   | none => .error ("FileNotFoundError: " ++ WF_TEMPLATE_PATH)
   | some parsed_workflow => mutate_workflow_doc parsed_workflow hyperparams)

/-! ### `check_server` (src/main.py lines 126-158) -/

/-- Outcome of one `requests.get` against the health URL: an HTTP status
code, or a raised `requests.RequestException`. -/
inductive ProbeRes where
  | status (code : Nat)
  | exn
  deriving Repr, DecidableEq

/-- The probe loop from attempt `i` with `r` attempts remaining: a 200
response returns `true` immediately, any other status or a transport
exception falls through to the next attempt (the exception is swallowed by
the bare `except`); exhausting the range returns `false`. -/
def check_server_from (get : Nat → ProbeRes) (i : Nat) : Nat → Bool
  | 0 => false
  | r + 1 => if get i = .status 200 then true else check_server_from get (i + 1) r

/-- Function `check_server(url, attempts, delay)`: the URL is replaced by the oracle
`get` giving each attempt's outcome; the delay only feeds `time.sleep`. -/
def check_server (get : Nat → ProbeRes) (attempts : Nat) (_delay : Nat) : Bool :=
  check_server_from get 0 attempts

/-! ### `validate_job_input` (src/main.py lines 161-192) -/

/-- The raw `job["input"]` value: either a structured (JSON-shaped) value, or
a string together with the result of `json.loads` on it (`none` when parsing
raises `JSONDecodeError`).  Python `None` is `.structured .null`. -/
inductive JobInput where
  | structured (v : JValue)
  | stringly (parsed : Option JValue)
  deriving Repr, Inhabited

/-- The validated data: the dictionary
`{"hf_lora": ..., "hyperparams": ...}`. -/
structure Validated where
  hf_lora : JValue
  hyperparams : JValue
  deriving Repr, Inhabited

/-- Lines 184-192: subscript the two required fields (an absent key raises
`KeyError`, uncaught), then reject `None` values with an error message. -/
def validate_fields (job_input : JValue) :
    Except String (Option Validated × Option String) :=
  match subscript job_input "hf_lora" with
  | .error e => .error e
  | .ok hf_lora =>
    match subscript job_input "hyperparams" with
    | .error e => .error e
    | .ok hyperparams =>
      if isNull hf_lora || isNull hyperparams then
        .ok (none, some "Need to provide both hf_lora and hyperparams in the request.")
      else
        .ok (some ⟨hf_lora, hyperparams⟩, none)

/-- Function `validate_job_input`: a `None` input and unparseable string input produce
`(None, message)`; otherwise the parsed structure is checked field by
field. -/
def validate_job_input (job_input : JobInput) :
    Except String (Option Validated × Option String) :=
  match job_input with
  | .structured .null => .ok (none, some "Job input is not provided.")
  | .stringly none => .ok (none, some "Job input is not valid JSON.")
  | .stringly (some v) => validate_fields v
  | .structured v => validate_fields v

/-! ### Polling (src/main.py lines 87-103 and 232-247) -/

/-- The loop guard of line 238, `prompt_id in history and
history[prompt_id].get("outputs")`: membership follows Python semantics on
each container shape, `.get` raises on a non-dictionary record, and the
final value is tested for truthiness. -/
def condCheck (history : JValue) (pv : JValue) : Except String Bool :=
  match history with
  | .obj fs =>
    match pv with
    | .str pid =>
      match getKey fs pid with
      | none => .ok false
      | some record =>
        match record with
        | .obj rfs => .ok (truthy ((getKey rfs "outputs").getD .null))
        | _ => .error "AttributeError: object has no attribute get"
    | .arr _ => .error "TypeError: unhashable type"
    | .obj _ => .error "TypeError: unhashable type"
    | _ => .ok false
  | .arr xs =>
    if xs.any (fun x => jeq x pv) then .error "TypeError: list indices must be integers"
    else .ok false
  | .str s =>
    match pv with
    | .str pid =>
      if strIn pid s then .error "TypeError: string indices must be integers"
      else .ok false
    | _ => .error "TypeError: a string is required"
  | _ => .error "TypeError: argument is not a container"

/-- Result of the polling loop: success with the history of the breaking
attempt, exhaustion of the retry budget, or an exception raised inside the
`try` block.  The `Nat` counts the history queries issued. -/
inductive PollResult where
  | success (history : JValue) (queries : Nat)
  | exhausted (queries : Nat)
  | failed (msg : String) (queries : Nat)
  deriving Repr

/-- The `while current_retry < COMFY_API_MAX_ATTEMPTS` loop of lines
232-243: each iteration issues one history query (`hist q` is the response
to the `q`-th query, an `Except.error` modelling a raised transport or
decode exception), breaks when the guard holds, and otherwise sleeps and
increments the counter; running out of budget falls into the `else` of the
`while`. -/
def poll_loop (hist : Nat → Except String JValue) (pv : JValue) (q : Nat) :
    Nat → PollResult
  | 0 => .exhausted q
  | r + 1 =>
    match hist q with
    | .error e => .failed e (q + 1)
    | .ok h =>
      match condCheck h pv with
      | .error e => .failed e (q + 1)
      | .ok true => .success h (q + 1)
      | .ok false => poll_loop hist pv (q + 1) r

/-! ### `process_output_images` (src/main.py lines 47-84) -/

/-- One upload call observed at the HuggingFace API (line 71-75). -/
structure UploadCall where
  path_or_fileobj : FsPath
  path_in_repo : String
  repo_id : String
  deriving Repr, DecidableEq

/-- The path `Path(image["subfolder"]) / image["filename"]` for one image
entry (a pathlib join, so an absolute filename replaces the subfolder):
`KeyError` on a missing key, `TypeError` when a field is not a string or the
entry is not a dictionary. -/
def image_rel_path (image : JValue) : Except String FsPath :=
  match image with
  | .obj fs =>
    match getKey fs "subfolder" with
    | none => .error "KeyError: subfolder"
    | some (.str sub) =>
      match getKey fs "filename" with
      | none => .error "KeyError: filename"
      | some (.str fn) => .ok (joinPath (pathOfString sub) (pathOfString fn))
      | some _ => .error "TypeError: argument should be a str"
    | some _ => .error "TypeError: argument should be a str"
  | _ => .error "TypeError: object is not subscriptable"

/-- The `"images" in node_output` test plus `node_output["images"]` as an
iterable list: `none` when the node has no images entry (the node is
skipped), a list of image entries otherwise.  Non-dictionary nodes and
non-list images values raise on membership/iteration/subscript exactly when
CPython would; an empty dictionary or string iterates zero times. -/
def node_images (node_output : JValue) : Except String (Option (List JValue))
  :=
  match node_output with
  | .obj fs =>
    match getKey fs "images" with
    | none => .ok none
    | some (.arr imgs) => .ok (some imgs)
    | some (.obj []) => .ok (some [])
    | some (.str "") => .ok (some [])
    | some _ => .error "TypeError: images is not iterable over image entries"
  | .arr xs =>
    if xs.any (fun x => jeq x (.str "images")) then
      .error "TypeError: list indices must be integers"
    else .ok none
  | .str s =>
    if strIn "images" s then .error "TypeError: string indices must be integers"
    else .ok none
  | _ => .error "TypeError: argument is not a container"

/-- The inner `for image in node_output["images"]` loop: each image entry
overwrites `output_images` with its own relative path (last write wins). -/
def scan_images_list (imgs : List JValue) (acc : FsPath) :
    Except String FsPath :=
  match imgs with
  | [] => .ok acc
  | img :: tl =>
    match image_rel_path img with
    | .error e => .error e
    | .ok p => scan_images_list tl p

/-- The outer `for node_id, node_output in outputs.items()` loop of lines
59-64, starting from `output_images = ""`. -/
def scan_nodes (nodes : List (String × JValue)) (acc : FsPath) :
    Except String FsPath :=
  match nodes with
  | [] => .ok acc
  | (_, node_output) :: tl =>
    match node_images node_output with
    | .error e => .error e
    | .ok none => scan_nodes tl acc
    | .ok (some imgs) =>
      match scan_images_list imgs acc with
      | .error e => .error e
      | .ok acc' => scan_nodes tl acc'

/-- Lines 57-66: scan the outputs dictionary, starting from
`output_images = ""`, and join the final value under `COMFY_OUTPUT_PATH` by
the pathlib `/` (the initial `""` joins to the root itself; an absolute scan
result replaces the root).  `outputs.items()` raises `AttributeError` on a
non-dictionary. -/
def local_images_path_of (outputs : JValue) : Except String FsPath :=
  match outputs with
  | .obj nodes =>
    match scan_nodes nodes (pathOfString "") with
    | .error e => .error e
    | .ok rel => .ok (joinPath COMFY_OUTPUT_PATH rel)
  | _ => .error "AttributeError: object has no attribute items"

/-- Function `process_output_images(outputs)`: resolve the local path, test existence,
and either upload (recording the call; `uploadRes` is the oracle for the
upload's outcome) or report the missing image.  The returned pair is the
result dictionary and the list of upload calls made. -/
def process_output_images (outputs : JValue) (fexists : FsPath → Bool)
    (uploadRes : Except String Unit) :
    Except String (JObj × List UploadCall) :=
  match local_images_path_of outputs with
  | .error e => .error e
  | .ok lp =>
    if fexists lp then
      match uploadRes with
      | .ok _ =>
        .ok ([("status", .str "success"),
              ("message", .str "Successfully uploaded output to HuggingFace.")],
             [⟨lp, pathName lp, HF_REPO_UPLOAD⟩])
      | .error e =>
        .ok ([("status", .str "error"),
              ("message", .str ("Error uploading to HF: " ++ e))],
             [⟨lp, pathName lp, HF_REPO_UPLOAD⟩])
    else
      .ok ([("status", .str "error"),
            ("message", .str ("The image does not exist in the output folder at: "
              ++ renderPath lp))],
           [])

/-! ### `handler` (src/main.py lines 195-256) -/

/-- The oracles standing for the handler's external collaborators. -/
structure Env where
  /-- Outcome of the `i`-th readiness GET issued by `check_server`. -/
  probe : Nat → ProbeRes
  /-- Parsed content of the on-disk files, keyed by relative path. -/
  files : List (String × JValue)
  /-- Response of `queue_workflow`: POSTing the given workflow to
  `/prompt` and decoding it (`Except.error` models a raised exception). -/
  queueResp : JValue → Except String JValue
  /-- Response of the `q`-th history query for the submitted prompt. -/
  history : Nat → Except String JValue
  /-- Filesystem existence test. -/
  fexists : FsPath → Bool
  /-- Outcome of `hf_api.upload_file`. -/
  uploadRes : Except String Unit

/-- The handler's observable outcome: the returned dictionary together with
the upload calls performed. -/
abbrev HandlerOut := JObj × List UploadCall

/-- Lines 222-228: `queue_workflow` then `queued_workflow["prompt_id"]`,
inside one `try`. -/
def submit_stage (resp : Except String JValue) : Except String JValue :=
  match resp with
  | .error e => .error e
  | .ok qr => subscript qr "prompt_id"

/-- Line 249: `history[prompt_id].get("outputs")`, outside any `try`. -/
def outputs_of_record (h : JValue) (pv : JValue) : Except String JValue :=
  match subscriptV h pv with
  | .error e => .error e
  | .ok record => dictGet record "outputs"

/-- Python truthiness of the validator's error component (`if error:`). -/
def errTruthy : Option String → Bool
  | none => false
  | some s => s != ""

/-- The handler body after successful validation: probe (result discarded),
mutate, submit, poll, resolve, publish.  Mutation and output processing are
outside any `try`, so their failures propagate as uncaught exceptions. -/
def handler_main (v : Validated) (env : Env) : Except String HandlerOut :=
  let _ready := check_server env.probe COMFY_API_MAX_ATTEMPTS COMFY_API_MAX_DELAY
  match (mutate_workflow env.files v.hyperparams).2 with
  | .error e => .error e
  | .ok modified_workflow =>
    match submit_stage (env.queueResp modified_workflow) with
    | .error e =>
      .ok ([("status", .str "error"),
            ("message", .str ("Error queuing workflow: " ++ e))], [])
    | .ok pv =>
      match poll_loop env.history pv 0 COMFY_API_MAX_ATTEMPTS with
      | .failed e _ =>
        .ok ([("status", .str "error"),
              ("message", .str ("Error waiting for image generation: " ++ e))], [])
      | .exhausted _ =>
        .ok ([("status", .str "error"),
              ("message", .str "Exceeded the maximum number of retries.")], [])
      | .success h _ =>
        match outputs_of_record h pv with
        | .error e => .error e
        | .ok outs =>
          match process_output_images outs env.fexists env.uploadRes with
          | .error e => .error e
          | .ok (pr, calls) =>
            .ok (setKey pr "refresh_worker" (.bool true), calls)

/-- Function `handler(job)` for `job_input = job["input"]`: validation failures that
the validator reports are answered with `{"error": message}` (line 202);
a `None` validated value would then crash on subscripting; otherwise the
main pipeline runs. -/
def handler (job_input : JobInput) (env : Env) : Except String HandlerOut :=
  match validate_job_input job_input with
  | .error e => .error e
  | .ok (vd, err) =>
    if errTruthy err then .ok ([("error", .str (err.getD ""))], [])
    else
      match vd with
      | none => .error "TypeError: NoneType is not subscriptable"
      | some v => handler_main v env

/-! ### Observers used to state the resolver claims

These folds over the outputs dictionary name the scan order and the image
entries the scan visits, so that the last-wins policy can be stated. -/

/-- The image entries contributed by one node output (empty when the node
has no well-formed images list). -/
def nodeImagesList (node_output : JValue) : List JValue :=
  match node_output with
  | .obj fs =>
    match getKey fs "images" with
    | some (.arr imgs) => imgs
    | _ => []
  | _ => []

/-- All image entries visited by the scan of `process_output_images`, in
visit order: node enumeration order, then each node's list order. -/
def imagesSeq : List (String × JValue) → List JValue
  | [] => []
  | (_, node_output) :: tl => nodeImagesList node_output ++ imagesSeq tl

/-- Is the field `k` present and bound to a string? -/
def wfStrField (fs : JObj) (k : String) : Bool :=
  match getKey fs k with
  | some (.str _) => true
  | _ => false

/-- A well-formed image entry: a dictionary with string `subfolder` and
`filename` fields. -/
def wfImage : JValue → Bool
  | .obj fs => wfStrField fs "subfolder" && wfStrField fs "filename"
  | _ => false

/-- A well-formed node output: a dictionary whose `images` entry, when
present, is a list of well-formed image entries. -/
def wfNodeOutput : JValue → Bool
  | .obj fs =>
    match getKey fs "images" with
    | none => true
    | some (.arr imgs) => imgs.all wfImage
    | some _ => false
  | _ => false

/-- A well-formed outputs dictionary. -/
def wfOutputs (nodes : List (String × JValue)) : Bool :=
  nodes.all (fun p => wfNodeOutput p.2)

/-- The path contributed by a (well-formed) image entry. -/
def relOfImage (img : JValue) : FsPath :=
  match image_rel_path img with
  | .ok p => p
  | .error _ => ⟨false, []⟩

/-- The accumulator after scanning a list of image entries: unchanged when
the list is empty, otherwise the relative path of its last entry. -/
def lastRel (imgs : List JValue) (acc : FsPath) : FsPath :=
  match imgs.getLast? with
  | none => acc
  | some i => relOfImage i

/-! ### Concrete fixtures for the witnesses -/

/-- A template document carrying the designated node/field path. -/
def tmplW : JValue :=
  .obj [("25", .obj [("inputs", .obj [("noise_seed", .num 1), ("width", .num 512)]),
                     ("class_type", .str "RandomNoise")]),
        ("6", .obj [("inputs", .obj [])])]

/-- A disk holding the template at its expected path. -/
def filesW : List (String × JValue) := [(WF_TEMPLATE_PATH, tmplW)]

/-- The node map of `tmplW`. -/
def nodesW : JObj :=
  [("25", .obj [("inputs", .obj [("noise_seed", .num 1), ("width", .num 512)]),
                ("class_type", .str "RandomNoise")]),
   ("6", .obj [("inputs", .obj [])])]

/-- The fields of node `"25"` of `tmplW`. -/
def nfldsW : JObj :=
  [("inputs", .obj [("noise_seed", .num 1), ("width", .num 512)]),
   ("class_type", .str "RandomNoise")]

/-- The inputs of node `"25"` of `tmplW`. -/
def ifldsW : JObj := [("noise_seed", .num 1), ("width", .num 512)]

/-- Template `tmplW` with its designated seed field overwritten with 42. -/
def tmplW42 : JValue :=
  .obj [("25", .obj [("inputs", .obj [("noise_seed", .num 42), ("width", .num 512)]),
                     ("class_type", .str "RandomNoise")]),
        ("6", .obj [("inputs", .obj [])])]

/-- A valid job input. -/
def inpW : JobInput :=
  .structured (.obj [("hf_lora", .str "l"),
                     ("hyperparams", .obj [("noise_seed", .num 42)])])

/-- The validated data of `inpW`. -/
def vW : Validated := ⟨.str "l", .obj [("noise_seed", .num 42)]⟩

/-- A history response with outputs for prompt `"abc"`: one image. -/
def histW : JValue :=
  .obj [("abc", .obj [("outputs",
    .obj [("9", .obj [("images",
      .arr [.obj [("subfolder", .str ""), ("filename", .str "img.png")]])])])])]

/-- The outputs dictionary inside `histW`. -/
def outsW : JValue :=
  .obj [("9", .obj [("images",
    .arr [.obj [("subfolder", .str ""), ("filename", .str "img.png")]])])]

/-- The one upload call of the nominal success scenario. -/
def uploadCallW : UploadCall :=
  ⟨⟨false, ["comfyui", "output", "img.png"]⟩, "img.png", HF_REPO_UPLOAD⟩

/-- The environment of the nominal success scenario. -/
def envW : Env :=
  { probe := fun _ => .exn
    files := filesW
    queueResp := fun _ => .ok (.obj [("prompt_id", .str "abc")])
    history := fun _ => .ok histW
    fexists := fun p => p == ⟨false, ["comfyui", "output", "img.png"]⟩
    uploadRes := .ok () }

/-- Environment `envW` with a server that never reports outputs. -/
def envE : Env := { envW with history := fun _ => .ok (.obj []) }

/-- Environment `envW` with a submission endpoint that raises. -/
def envQ : Env := { envW with queueResp := fun _ => .error "ConnectionError" }

/-- Environment `envW` with a history endpoint that raises. -/
def envF : Env := { envW with history := fun _ => .error "ConnectionError" }

/-- Environment `envW` with an empty disk: the template open raises. -/
def envM : Env := { envW with files := [] }

/-- Environment `envW` with a failing upload. -/
def envU : Env := { envW with uploadRes := .error "401 unauthorized" }

/-- Environment `envW` with a filesystem on which nothing exists. -/
def envA : Env := { envW with fexists := fun _ => false }

/-- A history sequence whose outputs appear for the first time on the third
query (indices 0 and 1 answer without outputs). -/
def histSeq : Nat → Except String JValue :=
  fun n => if n < 2 then .ok (.obj []) else .ok histW

/-- An outputs dictionary with images in two nodes, the second node holding
two images: the scan visits `a.png`, `b.png`, `c.png` in that order. -/
def nodesC6 : JObj :=
  [("A", .obj [("images", .arr
      [.obj [("subfolder", .str "s1"), ("filename", .str "a.png")]])]),
   ("B", .obj [("images", .arr
      [.obj [("subfolder", .str "s2"), ("filename", .str "b.png")],
       .obj [("subfolder", .str "s3"), ("filename", .str "c.png")]])])]

/-- An outputs dictionary whose single image carries an absolute subfolder:
pathlib resolves it outside the output root. -/
def nodesC6abs : JObj :=
  [("A", .obj [("images", .arr
      [.obj [("subfolder", .str "/etc"), ("filename", .str "passwd")]])])]

/-- An outputs dictionary with no images: one node without an images entry,
one with an empty images list. -/
def nodesC9 : JObj :=
  [("9", .obj [("text", .arr [.str "hello"])]),
   ("10", .obj [("images", .arr [])])]

/-! ## Supporting lemmas -/

theorem getKey_setKey_self (l : JObj) (k : String) (v : JValue) :
    getKey (setKey l k v) k = some v := by
  induction l with
  | nil => simp [setKey, getKey]
  | cons p tl ih =>
    obtain ⟨k', v'⟩ := p
    by_cases h : k' = k
    · simp [setKey, h, getKey]
    · simp [setKey, h, getKey, ih]

theorem getKey_setKey_ne (l : JObj) (k k' : String) (v : JValue) (h : k' ≠ k) :
    getKey (setKey l k v) k' = getKey l k' := by
  have h' : k ≠ k' := Ne.symm h
  induction l with
  | nil => simp [setKey, getKey, h']
  | cons p tl ih =>
    obtain ⟨k'', v''⟩ := p
    by_cases hk : k'' = k
    · subst hk
      simp [setKey, getKey, h']
    · simp only [setKey, if_neg hk, getKey]
      by_cases hk' : k'' = k'
      · simp [hk']
      · simp [hk', ih]

/-- Running out of budget: `r` consecutive attempts whose guard is false
leave the loop exhausted after exactly `r` further queries. -/
theorem poll_loop_exhaust (hist : Nat → Except String JValue) (pv : JValue) :
    ∀ (r q : Nat),
      (∀ j, j < r → ∃ h, hist (q + j) = .ok h ∧ condCheck h pv = .ok false) →
      poll_loop hist pv q r = .exhausted (q + r) := by
  intro r
  induction r with
  | zero => intro q _; simp [poll_loop]
  | succ r ih =>
    intro q hall
    obtain ⟨h0, hh0, hc0⟩ := hall 0 (Nat.succ_pos r)
    rw [Nat.add_zero] at hh0
    simp only [poll_loop, hh0, hc0]
    have hres := ih (q + 1) (fun j hj => by
      obtain ⟨h', hh', hc'⟩ := hall (j + 1) (by omega)
      exact ⟨h', by rwa [show q + (j + 1) = q + 1 + j by omega] at hh', hc'⟩)
    rw [hres]
    congr 1
    omega

/-- First success on attempt `k`: the loop breaks there with the history of
that attempt, after exactly `k` queries. -/
theorem poll_loop_first_success (hist : Nat → Except String JValue) (pv hk : JValue) :
    ∀ (k r q : Nat), 1 ≤ k → k ≤ r →
      (∀ j, j + 1 < k → ∃ h, hist (q + j) = .ok h ∧ condCheck h pv = .ok false) →
      hist (q + (k - 1)) = .ok hk → condCheck hk pv = .ok true →
      poll_loop hist pv q r = .success hk (q + k) := by
  intro k
  induction k with
  | zero => intro r q h1 _ _ _ _; exact absurd h1 (by omega)
  | succ k ih =>
    intro r q _ hkr hbefore hat hc
    obtain ⟨r', rfl⟩ : ∃ r', r = r' + 1 := ⟨r - 1, by omega⟩
    rcases Nat.eq_zero_or_pos k with hk0 | hkpos
    · subst hk0
      rw [show q + (1 - 1) = q by omega] at hat
      simp [poll_loop, hat, hc]
    · obtain ⟨h0, hh0, hc0⟩ := hbefore 0 (by omega)
      rw [Nat.add_zero] at hh0
      simp only [poll_loop, hh0, hc0]
      have hres := ih r' (q + 1) hkpos (by omega)
        (fun j hj => by
          obtain ⟨h', hh', hc'⟩ := hbefore (j + 1) (by omega)
          exact ⟨h', by rwa [show q + (j + 1) = q + 1 + j by omega] at hh', hc'⟩)
        (by rwa [show q + 1 + (k - 1) = q + (k + 1 - 1) by omega])
        hc
      rw [hres]
      congr 1
      omega

/-! ## Claims -/

/-- C1: the claim is false as stated.  A validation failure is answered by
`handler` with the dictionary `{"error": message}`, which has no `status`
and no `message` key, so a stage failure does produce a result of another
shape than `{status: "error", message}`; moreover a template-load failure
in the mutation stage is not caught at all and escapes as an exception. -/
theorem C1_counterexample :
    handler (.structured .null) envW
      = .ok ([("error", .str "Job input is not provided.")], [])
    ∧ getKey [("error", JValue.str "Job input is not provided.")] "status" = none
    ∧ handler inpW envM = .error ("FileNotFoundError: " ++ WF_TEMPLATE_PATH) :=
  ⟨rfl, rfl, rfl⟩

/-- C1 (amended): failures of the submission and polling stages are caught
and converted to `{status: "error", message: <component-specific>}`; a
failure the validator itself reports is answered with `{"error": message}`
(a different shape, with no status field); and a validator exception, a
template-load/mutation failure, an output-record access failure and an
output-scan failure all propagate as uncaught exceptions rather than
producing any result. -/
theorem C1_error_policy (inp : JobInput) (env : Env) :
    (∀ vd msg, validate_job_input inp = .ok (vd, some msg) → msg ≠ "" →
      handler inp env = .ok ([("error", .str msg)], []))
    ∧ (∀ e, validate_job_input inp = .error e → handler inp env = .error e)
    ∧ (∀ v e, validate_job_input inp = .ok (some v, none) →
        (mutate_workflow env.files v.hyperparams).2 = .error e →
        handler inp env = .error e)
    ∧ (∀ v w e, validate_job_input inp = .ok (some v, none) →
        (mutate_workflow env.files v.hyperparams).2 = .ok w →
        submit_stage (env.queueResp w) = .error e →
        handler inp env = .ok ([("status", .str "error"),
          ("message", .str ("Error queuing workflow: " ++ e))], []))
    ∧ (∀ v w pv e n, validate_job_input inp = .ok (some v, none) →
        (mutate_workflow env.files v.hyperparams).2 = .ok w →
        submit_stage (env.queueResp w) = .ok pv →
        poll_loop env.history pv 0 COMFY_API_MAX_ATTEMPTS = .failed e n →
        handler inp env = .ok ([("status", .str "error"),
          ("message", .str ("Error waiting for image generation: " ++ e))], []))
    ∧ (∀ v w pv n, validate_job_input inp = .ok (some v, none) →
        (mutate_workflow env.files v.hyperparams).2 = .ok w →
        submit_stage (env.queueResp w) = .ok pv →
        poll_loop env.history pv 0 COMFY_API_MAX_ATTEMPTS = .exhausted n →
        handler inp env = .ok ([("status", .str "error"),
          ("message", .str "Exceeded the maximum number of retries.")], []))
    ∧ (∀ v w pv h k e, validate_job_input inp = .ok (some v, none) →
        (mutate_workflow env.files v.hyperparams).2 = .ok w →
        submit_stage (env.queueResp w) = .ok pv →
        poll_loop env.history pv 0 COMFY_API_MAX_ATTEMPTS = .success h k →
        outputs_of_record h pv = .error e →
        handler inp env = .error e)
    ∧ (∀ v w pv h k outs e, validate_job_input inp = .ok (some v, none) →
        (mutate_workflow env.files v.hyperparams).2 = .ok w →
        submit_stage (env.queueResp w) = .ok pv →
        poll_loop env.history pv 0 COMFY_API_MAX_ATTEMPTS = .success h k →
        outputs_of_record h pv = .ok outs →
        process_output_images outs env.fexists env.uploadRes = .error e →
        handler inp env = .error e) := by
  refine ⟨?_, ?_, ?_, ?_, ?_, ?_, ?_, ?_⟩
  · intro vd msg hval hmsg
    simp [handler, hval, errTruthy, hmsg]
  · intro e hval
    simp [handler, hval]
  · intro v e hval hmut
    simp [handler, hval, errTruthy, handler_main, hmut]
  · intro v w e hval hmut hsub
    simp [handler, hval, errTruthy, handler_main, hmut, hsub]
  · intro v w pv e n hval hmut hsub hpoll
    simp [handler, hval, errTruthy, handler_main, hmut, hsub, hpoll]
  · intro v w pv n hval hmut hsub hpoll
    simp [handler, hval, errTruthy, handler_main, hmut, hsub, hpoll]
  · intro v w pv h k e hval hmut hsub hpoll houts
    simp [handler, hval, errTruthy, handler_main, hmut, hsub, hpoll, houts]
  · intro v w pv h k outs e hval hmut hsub hpoll houts hproc
    simp [handler, hval, errTruthy, handler_main, hmut, hsub, hpoll, houts, hproc]

/-- Witness for C1 (amended): the policy evaluated on concrete scenarios,
one per caught stage and one per escaping stage. -/
theorem C1_error_policy_witness :
    handler (.structured .null) envW
      = .ok ([("error", .str "Job input is not provided.")], [])
    ∧ handler inpW envQ = .ok ([("status", .str "error"),
        ("message", .str "Error queuing workflow: ConnectionError")], [])
    ∧ handler inpW envF = .ok ([("status", .str "error"),
        ("message", .str "Error waiting for image generation: ConnectionError")], [])
    ∧ handler inpW envE = .ok ([("status", .str "error"),
        ("message", .str "Exceeded the maximum number of retries.")], [])
    ∧ handler inpW envM = .error ("FileNotFoundError: " ++ WF_TEMPLATE_PATH) :=
  ⟨(C1_error_policy (.structured .null) envW).1 none "Job input is not provided."
     rfl (by decide),
   (C1_error_policy inpW envQ).2.2.2.1 vW tmplW42 "ConnectionError" rfl rfl rfl,
   (C1_error_policy inpW envF).2.2.2.2.1 vW tmplW42 (.str "abc") "ConnectionError" 1
     rfl rfl rfl rfl,
   (C1_error_policy inpW envE).2.2.2.2.2.1 vW tmplW42 (.str "abc") 100
     rfl rfl rfl rfl,
   (C1_error_policy inpW envM).2.2.1 vW ("FileNotFoundError: " ++ WF_TEMPLATE_PATH)
     rfl rfl⟩

/-- C2: the code contradicts the claim (a slip the adjacent `None` check
shows was unintended): when a required field is absent from the job input,
`job_input["hf_lora"]` / `job_input["hyperparams"]` raises `KeyError`, which
propagates out of the handler, instead of the validator returning a
missing-field error message. -/
theorem C2_missing_field_keyerror :
    validate_job_input
        (.structured (.obj [("hyperparams", .obj [("noise_seed", .num 1)])]))
      = .error "KeyError: hf_lora"
    ∧ validate_job_input (.structured (.obj [("hf_lora", .str "x")]))
      = .error "KeyError: hyperparams"
    ∧ handler (.structured (.obj [("hyperparams", .obj [("noise_seed", .num 1)])])) envW
      = .error "KeyError: hf_lora" :=
  ⟨rfl, rfl, rfl⟩

/-- C3: when the loop guard (the record for the correlation id exists and
its outputs field is truthy) holds for the first time on attempt `k`, with
`k ≤ maxAttempts`, the polling loop terminates successfully on attempt `k`,
returns the history obtained on attempt `k`, and issues exactly `k`
queries. -/
theorem C3_poll_success_on_attempt_k (hist : Nat → Except String JValue)
    (pv hk : JValue) (k maxA : Nat) (h1 : 1 ≤ k) (h2 : k ≤ maxA)
    (hbefore : ∀ j, j + 1 < k → ∃ h, hist j = .ok h ∧ condCheck h pv = .ok false)
    (hat : hist (k - 1) = .ok hk) (hcond : condCheck hk pv = .ok true) :
    poll_loop hist pv 0 maxA = .success hk k := by
  have hres := poll_loop_first_success hist pv hk k maxA 0 h1 h2
    (fun j hj => by simpa using hbefore j hj)
    (by simpa using hat) hcond
  simpa using hres

/-- Witness for C3: outputs appear on the third query of five allowed; the
loop returns that query's history and has issued exactly three queries. -/
theorem C3_poll_success_witness :
    poll_loop histSeq (.str "abc") 0 5 = .success histW 3 :=
  C3_poll_success_on_attempt_k histSeq (.str "abc") histW 3 5
    (by decide) (by decide)
    (fun j hj => ⟨.obj [], by simp [histSeq, show j < 2 by omega], rfl⟩)
    rfl rfl

/-- C4: when outputs never appear, the polling loop issues exactly
`COMFY_API_MAX_ATTEMPTS` queries and exhausts, and the handler returns the
error result whose message contains "maximum number of retries" — a
different branch (and message) than a transport error during a query. -/
theorem C4_polling_exhausted (inp : JobInput) (env : Env) (v : Validated)
    (w pv : JValue)
    (hval : validate_job_input inp = .ok (some v, none))
    (hmut : (mutate_workflow env.files v.hyperparams).2 = .ok w)
    (hsub : submit_stage (env.queueResp w) = .ok pv)
    (hnever : ∀ j, j < COMFY_API_MAX_ATTEMPTS →
      ∃ h, env.history j = .ok h ∧ condCheck h pv = .ok false) :
    poll_loop env.history pv 0 COMFY_API_MAX_ATTEMPTS
      = .exhausted COMFY_API_MAX_ATTEMPTS
    ∧ handler inp env = .ok ([("status", .str "error"),
        ("message", .str "Exceeded the maximum number of retries.")], [])
    ∧ strIn "maximum number of retries" "Exceeded the maximum number of retries."
        = true := by
  have hpoll := poll_loop_exhaust env.history pv COMFY_API_MAX_ATTEMPTS 0
    (fun j hj => by simpa using hnever j hj)
  rw [Nat.zero_add] at hpoll
  refine ⟨hpoll, ?_, by decide⟩
  simp [handler, hval, errTruthy, handler_main, hmut, hsub, hpoll]

/-- Witness for C4: a server that always answers with an empty history. -/
theorem C4_polling_exhausted_witness :
    poll_loop envE.history (.str "abc") 0 COMFY_API_MAX_ATTEMPTS
      = .exhausted COMFY_API_MAX_ATTEMPTS
    ∧ handler inpW envE = .ok ([("status", .str "error"),
        ("message", .str "Exceeded the maximum number of retries.")], [])
    ∧ strIn "maximum number of retries" "Exceeded the maximum number of retries."
        = true :=
  C4_polling_exhausted inpW envE vW tmplW42 (.str "abc") rfl rfl rfl
    (fun _ _ => ⟨.obj [], rfl, rfl⟩)

/-- C5: for a template carrying the designated node/field path and any
supplied `noise_seed` value, the mutation succeeds, the returned document's
node `"25"` field `inputs.noise_seed` equals exactly the supplied value,
every other key at every level of the designated path is bound to the very
same value as in the loaded template, and the on-disk template (opened
read-only) is unchanged. -/
theorem C5_mutate_frame (files : List (String × JValue))
    (nodes nflds iflds hps : JObj) (old seed : JValue)
    (hfile : getKey files WF_TEMPLATE_PATH = some (.obj nodes))
    (h25 : getKey nodes "25" = some (.obj nflds))
    (hin : getKey nflds "inputs" = some (.obj iflds))
    (hseed : getKey iflds "noise_seed" = some old)
    (hhp : getKey hps "noise_seed" = some seed) :
    (mutate_workflow files (.obj hps)).1 = files
    ∧ ∃ nodes' nflds' iflds' : JObj,
        (mutate_workflow files (.obj hps)).2 = .ok (.obj nodes')
        ∧ getKey nodes' "25" = some (.obj nflds')
        ∧ getKey nflds' "inputs" = some (.obj iflds')
        ∧ getKey iflds' "noise_seed" = some seed
        ∧ (∀ k, k ≠ "25" → getKey nodes' k = getKey nodes k)
        ∧ (∀ k, k ≠ "inputs" → getKey nflds' k = getKey nflds k)
        ∧ (∀ k, k ≠ "noise_seed" → getKey iflds' k = getKey iflds k) := by
  refine ⟨rfl,
    setKey nodes "25" (.obj (setKey nflds "inputs" (.obj (setKey iflds "noise_seed" seed)))),
    setKey nflds "inputs" (.obj (setKey iflds "noise_seed" seed)),
    setKey iflds "noise_seed" seed,
    ?_, ?_, ?_, ?_, ?_, ?_, ?_⟩
  · simp [mutate_workflow, hfile, mutate_workflow_doc, h25, hin, hseed, hhp]
  · exact getKey_setKey_self nodes "25" _
  · exact getKey_setKey_self nflds "inputs" _
  · exact getKey_setKey_self iflds "noise_seed" _
  · exact fun k hk => getKey_setKey_ne nodes "25" k _ hk
  · exact fun k hk => getKey_setKey_ne nflds "inputs" k _ hk
  · exact fun k hk => getKey_setKey_ne iflds "noise_seed" k _ hk

/-- Witness for C5: mutating the concrete template with seed 42. -/
theorem C5_mutate_frame_witness :
    (mutate_workflow filesW (.obj [("noise_seed", .num 42)])).1 = filesW
    ∧ ∃ nodes' nflds' iflds' : JObj,
        (mutate_workflow filesW (.obj [("noise_seed", .num 42)])).2 = .ok (.obj nodes')
        ∧ getKey nodes' "25" = some (.obj nflds')
        ∧ getKey nflds' "inputs" = some (.obj iflds')
        ∧ getKey iflds' "noise_seed" = some (.num 42)
        ∧ (∀ k, k ≠ "25" → getKey nodes' k = getKey nodesW k)
        ∧ (∀ k, k ≠ "inputs" → getKey nflds' k = getKey nfldsW k)
        ∧ (∀ k, k ≠ "noise_seed" → getKey iflds' k = getKey ifldsW k) :=
  C5_mutate_frame filesW nodesW nfldsW ifldsW [("noise_seed", .num 42)]
    (.num 1) (.num 42) rfl rfl rfl rfl rfl

theorem wfStrField_spec (fs : JObj) (k : String) (h : wfStrField fs k = true) :
    ∃ s, getKey fs k = some (.str s) := by
  unfold wfStrField at h
  rcases hk : getKey fs k with _ | v <;> rw [hk] at h
  · simp at h
  · cases v <;> simp_all

theorem image_rel_path_of_wf (img : JValue) (h : wfImage img = true) :
    image_rel_path img = .ok (relOfImage img) := by
  rcases img with _ | b | n | s | xs | fs <;> simp [wfImage] at h
  obtain ⟨s, hs⟩ := wfStrField_spec _ _ h.1
  obtain ⟨f, hf⟩ := wfStrField_spec _ _ h.2
  simp [image_rel_path, relOfImage, hs, hf]

theorem scan_images_list_of_wf :
    ∀ (imgs : List JValue), imgs.all wfImage = true →
    ∀ acc, scan_images_list imgs acc = .ok (lastRel imgs acc) := by
  intro imgs
  induction imgs with
  | nil => intro _ acc; simp [scan_images_list, lastRel]
  | cons img tl ih =>
    intro hwf acc
    rw [List.all_cons, Bool.and_eq_true] at hwf
    simp only [scan_images_list, image_rel_path_of_wf img hwf.1,
      ih hwf.2 (relOfImage img)]
    congr 1
    unfold lastRel
    cases tl with
    | nil => simp [List.getLast?]
    | cons b bs =>
      rcases hlast : (b :: bs).getLast? with _ | i
      · exact absurd (List.getLast?_eq_none_iff.mp hlast) (by simp)
      · rw [List.getLast?_cons_cons, hlast]

theorem node_images_of_wf (no : JValue) (h : wfNodeOutput no = true) :
    (node_images no = .ok none ∧ nodeImagesList no = [])
    ∨ (node_images no = .ok (some (nodeImagesList no))
        ∧ (nodeImagesList no).all wfImage = true) := by
  rcases no with _ | b | n | s | xs | fs <;> simp [wfNodeOutput] at h
  rcases him : getKey fs "images" with _ | v
  · exact Or.inl ⟨by simp [node_images, him], by simp [nodeImagesList, him]⟩
  · rw [him] at h
    cases v with
    | arr imgs =>
      refine Or.inr ⟨by simp [node_images, nodeImagesList, him], ?_⟩
      simpa [nodeImagesList, him] using h
    | null => simp at h
    | bool b => simp at h
    | num n => simp at h
    | str s => simp at h
    | obj ofs => simp at h

theorem scan_nodes_of_wf :
    ∀ (nodes : JObj), wfOutputs nodes = true →
    ∀ acc, scan_nodes nodes acc = .ok (lastRel (imagesSeq nodes) acc) := by
  intro nodes
  induction nodes with
  | nil => intro _ acc; simp [scan_nodes, imagesSeq, lastRel]
  | cons p tl ih =>
    intro hwf acc
    obtain ⟨nid, no⟩ := p
    rw [wfOutputs, List.all_cons, Bool.and_eq_true] at hwf
    obtain ⟨hno, htl⟩ := hwf
    rcases node_images_of_wf no hno with ⟨hni, hlist⟩ | ⟨hni, hall⟩
    · simp only [scan_nodes, hni, ih htl]
      congr 1
      simp [imagesSeq, hlist]
    · simp only [scan_nodes, hni, scan_images_list_of_wf _ hall, ih htl]
      congr 1
      simp only [imagesSeq]
      unfold lastRel
      rw [List.getLast?_append]
      rcases hl : (imagesSeq tl).getLast? with _ | i <;> simp [Option.or]

/-- C6: the claim is false as stated: `pathlib`'s anchor rule means the
resolved path is not always joined under the local output root.  For the
last (and only) image with subfolder `"/etc"` and filename `"passwd"`, the
resolver yields the absolute path `/etc/passwd`, which replaces the
relative root `comfyui/output` instead of sitting under it. -/
theorem C6_counterexample :
    local_images_path_of (.obj nodesC6abs) = .ok ⟨true, ["etc", "passwd"]⟩
    ∧ (FsPath.mk true ["etc", "passwd"]).absolute = true
    ∧ COMFY_OUTPUT_PATH.absolute = false
    ∧ renderPath ⟨true, ["etc", "passwd"]⟩ = "/etc/passwd" :=
  ⟨rfl, rfl, rfl, by decide⟩

/-- C6 (amended): for an outputs mapping containing at least one image, the
resolver keeps the last image visited by the scan — last-wins across both
the node enumeration order and each node's image list, not the first
match — and resolves its subfolder/filename against the local output root
by the pathlib join; when both components are relative (the normal
artifact case) the resolved path lies under the output root, while an
absolute component replaces the root. -/
theorem C6_last_image_wins (nodes : JObj) (ifs : JObj) (sub fn : String)
    (hwf : wfOutputs nodes = true)
    (hlast : (imagesSeq nodes).getLast? = some (.obj ifs))
    (hsub : getKey ifs "subfolder" = some (.str sub))
    (hfn : getKey ifs "filename" = some (.str fn)) :
    local_images_path_of (.obj nodes)
      = .ok (joinPath COMFY_OUTPUT_PATH
          (joinPath (pathOfString sub) (pathOfString fn)))
    ∧ ((pathOfString sub).absolute = false → (pathOfString fn).absolute = false →
        local_images_path_of (.obj nodes)
          = .ok ⟨false, COMFY_OUTPUT_PATH.parts
              ++ ((pathOfString sub).parts ++ (pathOfString fn).parts)⟩) := by
  have h1 : local_images_path_of (.obj nodes)
      = .ok (joinPath COMFY_OUTPUT_PATH
          (joinPath (pathOfString sub) (pathOfString fn))) := by
    simp [local_images_path_of, scan_nodes_of_wf nodes hwf, lastRel, hlast,
      relOfImage, image_rel_path, hsub, hfn]
  refine ⟨h1, fun habs1 habs2 => ?_⟩
  rw [h1]
  simp [joinPath, habs1, habs2, COMFY_OUTPUT_PATH]

/-- Witness for C6 (amended): two nodes, three images, all relative; the
resolver keeps the second node's second image `s3/c.png`, not the first
match `s1/a.png`, under the output root. -/
theorem C6_last_image_wins_witness :
    local_images_path_of (.obj nodesC6)
      = .ok (joinPath COMFY_OUTPUT_PATH
          (joinPath (pathOfString "s3") (pathOfString "c.png")))
    ∧ local_images_path_of (.obj nodesC6)
      = .ok ⟨false, COMFY_OUTPUT_PATH.parts
          ++ ((pathOfString "s3").parts ++ (pathOfString "c.png").parts)⟩ :=
  ⟨(C6_last_image_wins nodesC6
      [("subfolder", .str "s3"), ("filename", .str "c.png")]
      "s3" "c.png" rfl rfl rfl rfl).1,
   (C6_last_image_wins nodesC6
      [("subfolder", .str "s3"), ("filename", .str "c.png")]
      "s3" "c.png" rfl rfl rfl rfl).2 rfl rfl⟩

/-- C9: when no node has an images entry (or every images list is empty),
the resolved local path is the output root directory itself, so the
existence check tests the root directory; when that directory exists the
upload is invoked on the directory path (remote key `"output"`, the root's
own name) instead of the job failing with the missing-artifact error, and
only when it does not exist does the missing-artifact branch fire on the
root path. -/
theorem C9_no_images_resolves_root (nodes : JObj) (fexists : FsPath → Bool)
    (uploadRes : Except String Unit)
    (hwf : wfOutputs nodes = true)
    (hempty : imagesSeq nodes = []) :
    local_images_path_of (.obj nodes) = .ok COMFY_OUTPUT_PATH
    ∧ (fexists COMFY_OUTPUT_PATH = true →
        ∃ d, process_output_images (.obj nodes) fexists uploadRes
          = .ok (d, [⟨COMFY_OUTPUT_PATH, "output", HF_REPO_UPLOAD⟩]))
    ∧ (fexists COMFY_OUTPUT_PATH = false →
        process_output_images (.obj nodes) fexists uploadRes
          = .ok ([("status", .str "error"),
                  ("message", .str ("The image does not exist in the output folder at: "
                    ++ renderPath COMFY_OUTPUT_PATH))], [])) := by
  have h0 : pathOfString "" = (⟨false, []⟩ : FsPath) := rfl
  have hres : local_images_path_of (.obj nodes) = .ok COMFY_OUTPUT_PATH := by
    simp [local_images_path_of, scan_nodes_of_wf nodes hwf, lastRel, hempty, h0,
      joinPath, COMFY_OUTPUT_PATH]
  have hname : pathName COMFY_OUTPUT_PATH = "output" := rfl
  refine ⟨hres, ?_, ?_⟩
  · intro hex
    cases hup : uploadRes with
    | ok u =>
      exact ⟨[("status", .str "success"),
              ("message", .str "Successfully uploaded output to HuggingFace.")],
        by simp [process_output_images, hres, hex, hup, hname]⟩
    | error e =>
      exact ⟨[("status", .str "error"),
              ("message", .str ("Error uploading to HF: " ++ e))],
        by simp [process_output_images, hres, hex, hup, hname]⟩
  · intro hex
    simp [process_output_images, hres, hex]

/-- Witness for C9: the concrete no-images outputs, with an existing output
root: the upload is invoked on the root directory. -/
theorem C9_no_images_resolves_root_witness :
    local_images_path_of (.obj nodesC9) = .ok COMFY_OUTPUT_PATH
    ∧ ∃ d, process_output_images (.obj nodesC9) (fun _ => true) (.ok ())
        = .ok (d, [⟨COMFY_OUTPUT_PATH, "output", HF_REPO_UPLOAD⟩]) :=
  ⟨(C9_no_images_resolves_root nodesC9 (fun _ => true) (.ok ()) rfl rfl).1,
   (C9_no_images_resolves_root nodesC9 (fun _ => true) (.ok ()) rfl rfl).2.1 rfl⟩

/-- C7: the readiness probe's boolean result does not affect the job: the
handler's outcome is identical under any two probe oracles (in particular
under one that always fails, for which `check_server` returns false after
exhausting its attempts), given the same downstream responses. -/
theorem C7_probe_result_ignored (inp : JobInput) (env : Env)
    (probe1 probe2 : Nat → ProbeRes) :
    handler inp { env with probe := probe1 }
      = handler inp { env with probe := probe2 }
    ∧ check_server (fun _ => ProbeRes.exn) COMFY_API_MAX_ATTEMPTS
        COMFY_API_MAX_DELAY = false :=
  ⟨rfl, by decide⟩

/-- C8: the nominal end-to-end success path: valid input, a correlation id
from submission, outputs appearing within the attempt budget, an existing
resolved file and a successful upload give a result with status "success"
and refresh_worker true, and the store receives exactly one upload call
whose remote key is the resolved file's own name. -/
theorem C8_success_end_to_end (inp : JobInput) (env : Env) (v : Validated)
    (w pv h outs : JValue) (k : Nat) (lp : FsPath)
    (hval : validate_job_input inp = .ok (some v, none))
    (hmut : (mutate_workflow env.files v.hyperparams).2 = .ok w)
    (hsub : submit_stage (env.queueResp w) = .ok pv)
    (hpoll : poll_loop env.history pv 0 COMFY_API_MAX_ATTEMPTS = .success h k)
    (houts : outputs_of_record h pv = .ok outs)
    (hlp : local_images_path_of outs = .ok lp)
    (hex : env.fexists lp = true)
    (hup : env.uploadRes = .ok ()) :
    handler inp env
      = .ok ([("status", .str "success"),
              ("message", .str "Successfully uploaded output to HuggingFace."),
              ("refresh_worker", .bool true)],
             [⟨lp, pathName lp, HF_REPO_UPLOAD⟩]) := by
  simp [handler, hval, errTruthy, handler_main, hmut, hsub, hpoll, houts,
    process_output_images, hlp, hex, hup, setKey]

/-- Witness for C8: the nominal scenario evaluated end to end. -/
theorem C8_success_end_to_end_witness :
    handler inpW envW
      = .ok ([("status", .str "success"),
              ("message", .str "Successfully uploaded output to HuggingFace."),
              ("refresh_worker", .bool true)],
             [uploadCallW]) :=
  C8_success_end_to_end inpW envW vW tmplW42 (.str "abc") histW outsW 1
    ⟨false, ["comfyui", "output", "img.png"]⟩ rfl rfl rfl rfl rfl rfl rfl rfl

/-- C10: every result produced after the polling stage completes carries a
refresh_worker field set to true — whatever dictionary the output
processing returned, hence also the missing-artifact and failed-upload
error results — while the results returned for earlier failures
(validation, submission, polling exhaustion, polling transport error)
contain no refresh_worker key at all. -/
theorem C10_refresh_worker_field (inp : JobInput) (env : Env) :
    (∀ v w pv h k outs d calls,
      validate_job_input inp = .ok (some v, none) →
      (mutate_workflow env.files v.hyperparams).2 = .ok w →
      submit_stage (env.queueResp w) = .ok pv →
      poll_loop env.history pv 0 COMFY_API_MAX_ATTEMPTS = .success h k →
      outputs_of_record h pv = .ok outs →
      process_output_images outs env.fexists env.uploadRes = .ok (d, calls) →
      handler inp env = .ok (setKey d "refresh_worker" (.bool true), calls)
      ∧ getKey (setKey d "refresh_worker" (.bool true)) "refresh_worker"
          = some (.bool true))
    ∧ (∀ vd msg, validate_job_input inp = .ok (vd, some msg) → msg ≠ "" →
        handler inp env = .ok ([("error", .str msg)], [])
        ∧ getKey [("error", JValue.str msg)] "refresh_worker" = none)
    ∧ (∀ v w e, validate_job_input inp = .ok (some v, none) →
        (mutate_workflow env.files v.hyperparams).2 = .ok w →
        submit_stage (env.queueResp w) = .error e →
        handler inp env = .ok ([("status", .str "error"),
          ("message", .str ("Error queuing workflow: " ++ e))], [])
        ∧ getKey [("status", JValue.str "error"),
            ("message", JValue.str ("Error queuing workflow: " ++ e))]
            "refresh_worker" = none)
    ∧ (∀ v w pv e n, validate_job_input inp = .ok (some v, none) →
        (mutate_workflow env.files v.hyperparams).2 = .ok w →
        submit_stage (env.queueResp w) = .ok pv →
        poll_loop env.history pv 0 COMFY_API_MAX_ATTEMPTS = .failed e n →
        handler inp env = .ok ([("status", .str "error"),
          ("message", .str ("Error waiting for image generation: " ++ e))], [])
        ∧ getKey [("status", JValue.str "error"),
            ("message", JValue.str ("Error waiting for image generation: " ++ e))]
            "refresh_worker" = none)
    ∧ (∀ v w pv n, validate_job_input inp = .ok (some v, none) →
        (mutate_workflow env.files v.hyperparams).2 = .ok w →
        submit_stage (env.queueResp w) = .ok pv →
        poll_loop env.history pv 0 COMFY_API_MAX_ATTEMPTS = .exhausted n →
        handler inp env = .ok ([("status", .str "error"),
          ("message", .str "Exceeded the maximum number of retries.")], [])
        ∧ getKey [("status", JValue.str "error"),
            ("message", JValue.str "Exceeded the maximum number of retries.")]
            "refresh_worker" = none) := by
  refine ⟨?_, ?_, ?_, ?_, ?_⟩
  · intro v w pv h k outs d calls hval hmut hsub hpoll houts hproc
    refine ⟨?_, getKey_setKey_self d "refresh_worker" (.bool true)⟩
    simp [handler, hval, errTruthy, handler_main, hmut, hsub, hpoll, houts, hproc]
  · intro vd msg hval hmsg
    exact ⟨by simp [handler, hval, errTruthy, hmsg], rfl⟩
  · intro v w e hval hmut hsub
    exact ⟨by simp [handler, hval, errTruthy, handler_main, hmut, hsub], rfl⟩
  · intro v w pv e n hval hmut hsub hpoll
    exact ⟨by simp [handler, hval, errTruthy, handler_main, hmut, hsub, hpoll], rfl⟩
  · intro v w pv n hval hmut hsub hpoll
    exact ⟨by simp [handler, hval, errTruthy, handler_main, hmut, hsub, hpoll], rfl⟩

/-- Witness for C10: the field is present after upload success, upload
failure and missing artifact, and absent after polling exhaustion. -/
theorem C10_refresh_worker_field_witness :
    (handler inpW envW
      = .ok (setKey [("status", .str "success"),
          ("message", .str "Successfully uploaded output to HuggingFace.")]
          "refresh_worker" (.bool true), [uploadCallW])
     ∧ getKey (setKey [("status", JValue.str "success"),
          ("message", JValue.str "Successfully uploaded output to HuggingFace.")]
          "refresh_worker" (.bool true)) "refresh_worker" = some (.bool true))
    ∧ (handler inpW envU
      = .ok (setKey [("status", .str "error"),
          ("message", .str "Error uploading to HF: 401 unauthorized")]
          "refresh_worker" (.bool true), [uploadCallW])
     ∧ getKey (setKey [("status", JValue.str "error"),
          ("message", JValue.str "Error uploading to HF: 401 unauthorized")]
          "refresh_worker" (.bool true)) "refresh_worker" = some (.bool true))
    ∧ (handler inpW envA
      = .ok (setKey [("status", .str "error"),
          ("message", .str ("The image does not exist in the output folder at: "
            ++ renderPath ⟨false, ["comfyui", "output", "img.png"]⟩))]
          "refresh_worker" (.bool true), [])
     ∧ getKey (setKey [("status", JValue.str "error"),
          ("message", JValue.str ("The image does not exist in the output folder at: "
            ++ renderPath ⟨false, ["comfyui", "output", "img.png"]⟩))]
          "refresh_worker" (.bool true)) "refresh_worker" = some (.bool true))
    ∧ (handler inpW envE
      = .ok ([("status", .str "error"),
              ("message", .str "Exceeded the maximum number of retries.")], [])
     ∧ getKey [("status", JValue.str "error"),
          ("message", JValue.str "Exceeded the maximum number of retries.")]
          "refresh_worker" = none) :=
  ⟨(C10_refresh_worker_field inpW envW).1 vW tmplW42 (.str "abc") histW 1 outsW
      [("status", .str "success"),
       ("message", .str "Successfully uploaded output to HuggingFace.")]
      [uploadCallW] rfl rfl rfl rfl rfl rfl,
   (C10_refresh_worker_field inpW envU).1 vW tmplW42 (.str "abc") histW 1 outsW
      [("status", .str "error"),
       ("message", .str "Error uploading to HF: 401 unauthorized")]
      [uploadCallW] rfl rfl rfl rfl rfl rfl,
   (C10_refresh_worker_field inpW envA).1 vW tmplW42 (.str "abc") histW 1 outsW
      [("status", .str "error"),
       ("message", .str ("The image does not exist in the output folder at: "
         ++ renderPath ⟨false, ["comfyui", "output", "img.png"]⟩))]
      [] rfl rfl rfl rfl rfl rfl,
   (C10_refresh_worker_field inpW envE).2.2.2.2 vW tmplW42 (.str "abc") 100
      rfl rfl rfl rfl⟩

end RpComfy
